import Mathlib

/-!
Verification development for the PDF Knowledge Assistant repository
(`src/pdf_processor.py`, `src/knowledge_base.py`, `src/chat_interface.py`,
`src/api.py`).

The repository is shallowly embedded: each Python function that a claim
depends on becomes a Lean definition over explicit state.  External
collaborators that the spec declares opaque (the FAISS vector index, the
embedding function, the LLM) are modelled by their observable interface:
the FAISS store is the list of documents it holds, similarity search is an
arbitrary function of the store contents (`SearchFn`), and the LLM is an
arbitrary function from prompt to answer text / token list.
-/

/-- A langchain `Document`: page content plus the `source` metadata entry
(`doc.metadata["source"]`, absent when the key was never set). -/
structure Document where
  page_content : String
  source : Option String
deriving DecidableEq, Repr

/-- The FAISS vector store, observed through the set of documents it holds
(embeddings are computed by the opaque embedding function and add no
observable structure beyond the stored documents). -/
structure VectorStore where
  docs : List Document
deriving DecidableEq, Repr

/-- `FAISS.from_documents(documents, embedding_model)`: builds a fresh
store holding exactly the given documents. -/
def FAISS.from_documents (documents : List Document) : VectorStore :=
  ⟨documents⟩

/-- `vector_store.add_documents(documents)`: appends the documents to the
existing store, preserving prior entries. -/
def VectorStore.add_documents (vs : VectorStore) (documents : List Document) : VectorStore :=
  ⟨vs.docs ++ documents⟩

/-- The opaque `similarity_search` capability: a function of the store
contents, the query text and `k`.  The code never constrains it beyond
being a deterministic function of these arguments. -/
def SearchFn : Type :=
  List Document → String → Nat → List Document

/-- The persisted state of `data/embeddings/faiss_index` on disk:
the directory is missing, holds bytes that fail deserialization, or holds
a successfully serialized store. -/
inductive DiskState where
  | missing
  | corrupted
  | saved (vs : VectorStore)
deriving DecidableEq, Repr

/-- The mutable state of a `KnowledgeBase` object: `self.vector_store`
(None until a store is built or loaded) together with the persisted index
it reads and writes. -/
structure KBState where
  vector_store : Option VectorStore
  disk : DiskState
deriving DecidableEq, Repr

/-- `KnowledgeBase._load_vector_store` (knowledge_base.py lines 32-53):
if the index path exists, try `FAISS.load_local`; on success set
`self.vector_store` and return True; on any exception set
`self.vector_store = None` and return False; if the path does not exist,
print a message and return False leaving `self.vector_store` as it was.
Returns the new `self.vector_store` paired with the returned boolean. -/
def KnowledgeBase.load_vector_store (prior : Option VectorStore) (disk : DiskState) :
    Option VectorStore × Bool :=
  match disk with
  | .saved vs => (some vs, true)
  | .corrupted => (none, false)
  | .missing => (prior, false)

/-- `KnowledgeBase.check_knowledge_base_exists` (lines 55-65):
`self.vector_store is not None`. -/
def KnowledgeBase.check_knowledge_base_exists (st : KBState) : Bool :=
  st.vector_store.isSome

/-- `KnowledgeBase.add_documents` (lines 67-85): if `force_rebuild` or no
existing store, build a fresh store from the documents, else append to the
existing store; then save the resulting store to disk. -/
def KnowledgeBase.add_documents (st : KBState) (documents : List Document)
    (force_rebuild : Bool) : KBState :=
  let vs :=
    match st.vector_store with
    | none => FAISS.from_documents documents
    | some v =>
      if force_rebuild then FAISS.from_documents documents
      else v.add_documents documents
  { vector_store := some vs, disk := .saved vs }

/-- `KnowledgeBase.query` (lines 87-102): return `[]` when
`self.vector_store is None`, else the page contents of the top-k
similarity hits.  The method body contains no assignment to `self` and no
disk write, so in the state-passing embedding it returns the state
unchanged alongside the result. -/
def KnowledgeBase.query (search : SearchFn) (st : KBState) (question : String)
    (top_k : Nat) : KBState × List String :=
  match st.vector_store with
  | none => (st, [])
  | some vs => (st, (search vs.docs question top_k).map (·.page_content))

/-- Modelled from the spec: the Chunker's splitting algorithm lives in the
external `RecursiveCharacterTextSplitter` (langchain), whose code is not
part of this repository; `pdf_processor.py` only configures it with
`chunk_size` and `chunk_overlap`.  §4.1: each produced chunk's length is
at most `chunk_size`, consecutive chunks share `chunk_overlap` characters
of context, and a document shorter than `chunk_size` yields exactly one
chunk.  `fuel` bounds the recursion; `chunkText` supplies `text.length`,
which suffices because every step consumes at least one character. -/
def chunkTextAux (s o : Nat) : Nat → List Char → List (List Char)
  | 0, text => [text]
  | fuel + 1, text =>
    if text.length ≤ s ∨ s ≤ o then [text]
    else text.take s :: chunkTextAux s o fuel (text.drop (s - o))

/-- Modelled from the spec: chunking a text with size `s` and overlap `o`
(see `chunkTextAux`). -/
def chunkText (s o : Nat) (text : List Char) : List (List Char) :=
  chunkTextAux s o text.length text

/-- `PyPDFLoader(pdf_path).load()` either yields page documents or raises
(e.g. a corrupt file): an input PDF is observed through that outcome. -/
inductive PdfFile where
  | ok (path : String) (pages : List Document)
  | bad (path : String)
deriving DecidableEq, Repr

/-- The `PDFProcessor` object: the configured chunk parameters together
with the opaque `text_splitter.split_documents` capability built from
them (external langchain code, see `chunkText`). -/
structure PDFProcessor where
  chunk_size : Nat
  chunk_overlap : Nat
  text_splitter : List Document → List Document

/-- `os.path.basename`: the final path component (everything after the
last separator). -/
def basename (path : String) : String :=
  String.mk ((path.toList.reverse.takeWhile (· ≠ '/')).reverse)

/-- `PDFProcessor.process_pdf` (pdf_processor.py lines 31-56): load the
PDF, stamp each page's `source` metadata with the file's basename, split
into chunks; on any exception print the error and return `[]`. -/
def PDFProcessor.process_pdf (p : PDFProcessor) (f : PdfFile) : List Document :=
  match f with
  | .ok path pages =>
    p.text_splitter (pages.map fun d => { d with source := some (basename path) })
  | .bad _ => []

/-- `PDFProcessor.process_directory` (lines 58-75): process every PDF file
in the directory and concatenate the resulting chunk lists. -/
def PDFProcessor.process_directory (p : PDFProcessor) (files : List PdfFile) :
    List Document :=
  (files.map p.process_pdf).join

/-- `list(set(sources))` in chat_interface.py: collapse duplicates.  The
embedding uses `List.dedup`; the claims about it only concern membership
and duplicate-freeness, which any set-to-list conversion satisfies. -/
def dedupSources (sources : List String) : List String :=
  sources.dedup

/-- The QA prompt template of `ChatInterface.__init__` (chat_interface.py
lines 67-85), with the `context` and `question` slots filled as
`self.qa_prompt.format(context=..., question=...)` does. -/
def qaPromptFormat (context question : String) : String :=
  "You are a helpful PDF Knowledge Assistant that provides accurate information from documents.\n\nHere is the relevant information:\n---------------------\n"
    ++ context
    ++ "\n---------------------\n\nAnswer the question using only the information provided above. Do not:\n- Start with \"Based on...\" or reference the context\n- Rephrase the question\n- Start with a question\n\nQuestion: "
    ++ question
    ++ "\nAnswer: "

/-- The typed failure a `ChatInterface` query can raise before touching
retrieval or generation: the `RuntimeError("Knowledge base not
initialized...")`, which the spec's error taxonomy names `NotReadyError`. -/
inductive ChatError where
  | notReady
deriving DecidableEq, Repr

/-- `ChatInterface.get_response` (chat_interface.py lines 224-257): raise
`NotReadyError` when `check_knowledge_base_exists()` is false; otherwise
retrieve the top 4 chunks, build the grounding prompt, invoke the LLM
(the opaque `llm : String → String`), and return the answer with the
deduplicated source names of the retrieved chunks. -/
def ChatInterface.get_response (search : SearchFn) (llm : String → String)
    (st : KBState) (query : String) : Except ChatError (String × List String) :=
  match st.vector_store with
  | none => .error .notReady
  | some vs =>
    let docs := search vs.docs query 4
    let context := String.intercalate "\n\n" (docs.map (·.page_content))
    let prompt := qaPromptFormat context query
    let result := llm prompt
    let sources := dedupSources (docs.filterMap (·.source))
    .ok (result, sources)

/-- `ChatInterface.get_streaming_response` (chat_interface.py lines
259-302): raise `NotReadyError` when `check_knowledge_base_exists()` is
false; otherwise retrieve the top 4 chunks, build the prompt, start the
generation task, compute `unique_sources` once, and yield each streamed
token paired with that same `unique_sources` value.  `llmTokens` is the
opaque streaming LLM observed through the token list it pushes. -/
def ChatInterface.get_streaming_response (search : SearchFn)
    (llmTokens : String → List String) (st : KBState) (query : String) :
    Except ChatError (List (String × List String)) :=
  match st.vector_store with
  | none => .error .notReady
  | some vs =>
    let docs := search vs.docs query 4
    let context := String.intercalate "\n\n" (docs.map (·.page_content))
    let prompt := qaPromptFormat context query
    let tokens := llmTokens prompt
    let unique_sources := dedupSources (docs.filterMap (·.source))
    .ok (tokens.map fun t => (t, unique_sources))

/-- The langchain callback events a `StreamingCallbackHandler` instance can
receive during one `streaming_llm.invoke(prompt)` call: a new token, the
end-of-generation callback (success), or the error callback (the
invocation raised mid-generation). -/
inductive LLMEvent where
  | newToken (t : String)
  | llmEnd
  | llmError
deriving DecidableEq, Repr

/-- What `StreamingCallbackHandler` enqueues on each event
(chat_interface.py lines 20-34): `on_llm_new_token` does
`queue.put_nowait(token)`; `on_llm_end` does `queue.put_nowait(None)`;
`on_llm_error` is not overridden and the inherited
`StreamingStdOutCallbackHandler.on_llm_error` is a no-op, so nothing is
enqueued.  Queue entries are `Option String`: `some t` a token, `none`
the end sentinel. -/
def handlerEnqueue : LLMEvent → List (Option String)
  | .newToken t => [some t]
  | .llmEnd => [none]
  | .llmError => []

/-- The final contents of the handler's asyncio FIFO queue after the
generation task has processed the given event trace. -/
def queueContents (events : List LLMEvent) : List (Option String) :=
  (events.map handlerEnqueue).join

/-- The consumer loop of `StreamingCallbackHandler.get_tokens` (lines
36-42): repeatedly `await queue.get()`, stop on the `None` sentinel, yield
everything before it.  `some delivered` means the loop terminated having
yielded `delivered`; `none` means the queue ran dry with no sentinel ever
arriving, i.e. the `await` blocks forever. -/
def get_tokens : List (Option String) → Option (List String)
  | [] => none
  | some t :: rest => (get_tokens rest).map (t :: ·)
  | none :: _ => some []

/-- The event trace a successful `streaming_llm.invoke` produces: each
generated token in production order, then the end-of-generation callback. -/
def successTrace (tokens : List String) : List LLMEvent :=
  tokens.map .newToken ++ [.llmEnd]

/-- The event trace of an invocation that raises after producing some
tokens: langchain fires `on_llm_error` instead of `on_llm_end`. -/
def failureTrace (tokens : List String) : List LLMEvent :=
  tokens.map .newToken ++ [.llmError]

/-- The server state of `api.py`: the global `kb`, whether the global
`chat_interface` has been initialized, and the `data/pdfs` directory. -/
structure ApiState where
  kb : KBState
  chat_interface_ready : Bool
  pdf_dir : List PdfFile
deriving DecidableEq, Repr

/-- `get_status` (api.py lines 133-140): report `"ready"` when
`kb.check_knowledge_base_exists()` and `"not_ready"` otherwise. -/
def get_status (st : ApiState) : String :=
  if KnowledgeBase.check_knowledge_base_exists st.kb then "ready" else "not_ready"

/-- The JSON body `process_pdfs` returns on success. -/
structure ProcessResponse where
  status : String
  message : String
deriving DecidableEq, Repr

/-- An `HTTPException` raised by `process_pdfs`, observed via its status
code. -/
structure ApiError where
  status_code : Nat
deriving DecidableEq, Repr

/-- `process_pdfs` (api.py lines 142-172): despite the `BackgroundTasks`
parameter (never used), the handler runs inline: 400 when the directory
has no PDFs; otherwise process the directory, add the documents to `kb`
(with `force_rebuild` from the request), initialize the chat interface,
500 if the knowledge base still does not exist, else return
`{"status": "success", "message": "Processed N documents"}`.  The response
is produced together with the already-mutated state. -/
def process_pdfs (p : PDFProcessor) (st : ApiState) (force_rebuild : Bool) :
    Except ApiError (ApiState × ProcessResponse) :=
  if st.pdf_dir.isEmpty then .error ⟨400⟩
  else
    let documents := p.process_directory st.pdf_dir
    let kb := KnowledgeBase.add_documents st.kb documents force_rebuild
    let st' : ApiState := { st with kb := kb, chat_interface_ready := true }
    if ¬ KnowledgeBase.check_knowledge_base_exists kb then .error ⟨500⟩
    else .ok (st', ⟨"success", "Processed " ++ toString documents.length ++ " documents"⟩)

/-- The head chunk of `chunkTextAux` always exists and its leading `o`
characters are the leading `o` characters of the remaining text. -/
theorem chunkTextAux_head_take (s o fuel : Nat) (t : List Char) (ho : o ≤ s) :
    ∃ c rest, chunkTextAux s o fuel t = c :: rest ∧ c.take o = t.take o := by
  cases fuel with
  | zero => exact ⟨t, [], rfl, rfl⟩
  | succ f =>
    by_cases hc : t.length ≤ s ∨ s ≤ o
    · exact ⟨t, [], by simp [chunkTextAux, hc], rfl⟩
    · refine ⟨t.take s, chunkTextAux s o f (t.drop (s - o)),
        by simp [chunkTextAux, hc], ?_⟩
      rw [List.take_take, Nat.min_eq_left ho]

/-- Every chunk `chunkTextAux` emits has length at most `s`, provided the
fuel covers the text (each recursive step consumes `s - o ≥ 1` characters,
so `t.length` steps always suffice). -/
theorem chunkTextAux_length_le (s o : Nat) (ho : o < s) :
    ∀ (fuel : Nat) (t : List Char), t.length ≤ fuel + s →
      ∀ c ∈ chunkTextAux s o fuel t, c.length ≤ s := by
  intro fuel
  induction fuel with
  | zero =>
    intro t ht c hc
    simp [chunkTextAux] at hc
    subst hc
    simpa using ht
  | succ f ih =>
    intro t ht c hc
    by_cases hcond : t.length ≤ s ∨ s ≤ o
    · simp [chunkTextAux, hcond] at hc
      subst hc
      rcases hcond with h | h
      · exact h
      · omega
    · simp [chunkTextAux, hcond] at hc
      rcases hc with hc | hc
      · subst hc
        simp
      · exact ih (t.drop (s - o)) (by simp; omega) c hc

/-- Adjacent chunks of `chunkTextAux` overlap: each non-final chunk's
trailing `o` characters are exactly the next chunk's leading `o`
characters. -/
theorem chunkTextAux_chain (s o : Nat) (ho : o < s) :
    ∀ (fuel : Nat) (t : List Char),
      List.Chain' (fun a b => a.drop (a.length - o) = b.take o)
        (chunkTextAux s o fuel t) := by
  intro fuel
  induction fuel with
  | zero => intro t; simp [chunkTextAux]
  | succ f ih =>
    intro t
    by_cases hcond : t.length ≤ s ∨ s ≤ o
    · simp [chunkTextAux, hcond]
    · push_neg at hcond
      obtain ⟨hlen, _⟩ := hcond
      rw [chunkTextAux]
      simp only [if_neg (by omega : ¬ (t.length ≤ s ∨ s ≤ o))]
      obtain ⟨c, rest, heq, hco⟩ := chunkTextAux_head_take s o f (t.drop (s - o)) ho.le
      rw [heq]
      refine List.chain'_cons.2 ⟨?_, heq ▸ ih (t.drop (s - o))⟩
      have hts : (t.take s).length = s := by simp; omega
      rw [hts, hco, List.drop_take, Nat.sub_sub_self ho.le]

/-- C3: for every input text, chunking with chunk size `s` and overlap `o`
(`o < s`) produces chunks each of length at most `s`, and every non-final
chunk's trailing `o` characters reappear exactly as the leading `o`
characters of the next chunk. -/
theorem chunking_overlap_invariant (s o : Nat) (t : List Char) (h : o < s) :
    (∀ c ∈ chunkText s o t, c.length ≤ s) ∧
    List.Chain' (fun a b => a.drop (a.length - o) = b.take o) (chunkText s o t) :=
  ⟨chunkTextAux_length_le s o h t.length t (by omega), chunkTextAux_chain s o h t.length t⟩

/-- C3, witness: size 5, overlap 2 on the text `"ab cd ef"` (the chunks
are `"ab cd"` and `"cd ef"`, sharing `"cd"`). -/
theorem chunking_overlap_invariant_witness :
    (∀ c ∈ chunkText 5 2 "ab cd ef".toList, c.length ≤ 5) ∧
    List.Chain' (fun a b => a.drop (a.length - 2) = b.take 2)
      (chunkText 5 2 "ab cd ef".toList) :=
  chunking_overlap_invariant 5 2 "ab cd ef".toList (by decide)

/-- C1: the code violates the claim.  When the streaming model invocation
raises mid-stream, `on_llm_error` (not overridden, inherited as a no-op)
enqueues nothing, so the handoff queue never receives the `None` sentinel
and the consumer loop of `get_tokens` blocks forever on `queue.get()`.
Evaluated at the failing input: one token `"The"` produced, then the
invocation raises.  After the same prefix with a successful end the
consumer terminates, isolating the missing error sentinel as the cause. -/
theorem streaming_error_blocks_consumer :
    queueContents (failureTrace ["The"]) = [some "The"] ∧
    (∀ entry ∈ queueContents (failureTrace ["The"]), entry ≠ none) ∧
    get_tokens (queueContents (failureTrace ["The"])) = none ∧
    get_tokens (queueContents (successTrace ["The"])) = some ["The"] := by
  refine ⟨rfl, ?_, rfl, rfl⟩
  intro entry he
  simp [queueContents, failureTrace, handlerEnqueue] at he
  simp [he]

/-- C2: the claim fails on an absent index.  `add_documents([])` with
`self.vector_store is None` takes the `FAISS.from_documents` branch,
building and persisting a fresh empty store: afterwards
`check_knowledge_base_exists` reports true where it reported false, and
the persisted state changed from missing to a saved (empty) index. -/
theorem add_empty_on_absent_index_changes_state :
    KnowledgeBase.check_knowledge_base_exists ⟨none, DiskState.missing⟩ = false ∧
    KnowledgeBase.check_knowledge_base_exists
      (KnowledgeBase.add_documents ⟨none, DiskState.missing⟩ [] false) = true ∧
    (KnowledgeBase.add_documents ⟨none, DiskState.missing⟩ [] false).disk =
      DiskState.saved ⟨[]⟩ ∧
    ⟨none, DiskState.missing⟩ ≠ KnowledgeBase.add_documents ⟨none, DiskState.missing⟩ [] false := by
  refine ⟨rfl, rfl, rfl, by decide⟩

/-- C2, amended: when the in-memory index exists, `add_documents([])` is a
no-op up to re-saving identical content: the in-memory store is unchanged,
the persisted state holds exactly that store, and subsequent query results
and the exists check are unchanged. -/
theorem add_empty_noop_when_index_exists (search : SearchFn) (st : KBState)
    (v : VectorStore) (q : String) (k : Nat) (h : st.vector_store = some v) :
    (KnowledgeBase.add_documents st [] false).vector_store = some v ∧
    (KnowledgeBase.add_documents st [] false).disk = DiskState.saved v ∧
    (KnowledgeBase.query search (KnowledgeBase.add_documents st [] false) q k).2 =
      (KnowledgeBase.query search st q k).2 ∧
    KnowledgeBase.check_knowledge_base_exists (KnowledgeBase.add_documents st [] false) =
      KnowledgeBase.check_knowledge_base_exists st := by
  obtain ⟨docs⟩ := v
  simp [KnowledgeBase.add_documents, h, VectorStore.add_documents,
    KnowledgeBase.query, KnowledgeBase.check_knowledge_base_exists]

/-- C2, amended, witness: a populated one-document index. -/
theorem add_empty_noop_when_index_exists_witness :
    (KnowledgeBase.add_documents
        ⟨some ⟨[⟨"blue", some "a.pdf"⟩]⟩, DiskState.saved ⟨[⟨"blue", some "a.pdf"⟩]⟩⟩
        [] false).vector_store = some ⟨[⟨"blue", some "a.pdf"⟩]⟩ ∧
    (KnowledgeBase.add_documents
        ⟨some ⟨[⟨"blue", some "a.pdf"⟩]⟩, DiskState.saved ⟨[⟨"blue", some "a.pdf"⟩]⟩⟩
        [] false).disk = DiskState.saved ⟨[⟨"blue", some "a.pdf"⟩]⟩ ∧
    (KnowledgeBase.query (fun docs _ _ => docs)
        (KnowledgeBase.add_documents
          ⟨some ⟨[⟨"blue", some "a.pdf"⟩]⟩, DiskState.saved ⟨[⟨"blue", some "a.pdf"⟩]⟩⟩
          [] false) "q" 4).2 =
      (KnowledgeBase.query (fun docs _ _ => docs)
        ⟨some ⟨[⟨"blue", some "a.pdf"⟩]⟩, DiskState.saved ⟨[⟨"blue", some "a.pdf"⟩]⟩⟩
        "q" 4).2 ∧
    KnowledgeBase.check_knowledge_base_exists
        (KnowledgeBase.add_documents
          ⟨some ⟨[⟨"blue", some "a.pdf"⟩]⟩, DiskState.saved ⟨[⟨"blue", some "a.pdf"⟩]⟩⟩
          [] false) =
      KnowledgeBase.check_knowledge_base_exists
        ⟨some ⟨[⟨"blue", some "a.pdf"⟩]⟩, DiskState.saved ⟨[⟨"blue", some "a.pdf"⟩]⟩⟩ :=
  add_empty_noop_when_index_exists (fun docs _ _ => docs)
    ⟨some ⟨[⟨"blue", some "a.pdf"⟩]⟩, DiskState.saved ⟨[⟨"blue", some "a.pdf"⟩]⟩⟩
    ⟨[⟨"blue", some "a.pdf"⟩]⟩ "q" 4 rfl

/-- C4: both the synchronous answer operation and the streaming operation
fail with the NotReadyError-typed failure if and only if the index is not
loaded in memory; when it is loaded, neither returns that failure (the
call proceeds to retrieval and generation and yields an `ok` result). -/
theorem notReady_iff_index_absent (search : SearchFn) (llm : String → String)
    (llmTokens : String → List String) (st : KBState) (q : String) :
    (ChatInterface.get_response search llm st q = .error .notReady ↔
      st.vector_store = none) ∧
    (ChatInterface.get_streaming_response search llmTokens st q = .error .notReady ↔
      st.vector_store = none) := by
  cases h : st.vector_store <;>
    simp [ChatInterface.get_response, ChatInterface.get_streaming_response, h]

/-- C5: the code violates the claim.  `process_pdfs` runs the whole
pipeline inline (its `BackgroundTasks` parameter is unused) and answers
only after the documents are already added and the chat interface
initialized: at response time the returned state is fully processed and
the response reports the processed-document count, so the acknowledgment
is a completion report, not a started-processing acknowledgment; and
`get_status` only ever returns `"ready"` or `"not_ready"`, never
`"processing"`.  Evaluated at a server with no index and one readable
PDF. -/
theorem process_pdfs_completes_before_responding :
    process_pdfs ⟨1000, 200, fun docs => docs⟩
        ⟨⟨none, DiskState.missing⟩, false, [.ok "data/pdfs/a.pdf" [⟨"hello", none⟩]]⟩ false =
      .ok (⟨⟨some ⟨[⟨"hello", some "a.pdf"⟩]⟩, DiskState.saved ⟨[⟨"hello", some "a.pdf"⟩]⟩⟩,
            true, [.ok "data/pdfs/a.pdf" [⟨"hello", none⟩]]⟩,
           ⟨"success", "Processed 1 documents"⟩) ∧
    get_status ⟨⟨some ⟨[⟨"hello", some "a.pdf"⟩]⟩, DiskState.saved ⟨[⟨"hello", some "a.pdf"⟩]⟩⟩,
      true, [.ok "data/pdfs/a.pdf" [⟨"hello", none⟩]]⟩ = "ready" ∧
    (∀ st : ApiState, get_status st = "ready" ∨ get_status st = "not_ready") := by
  refine ⟨rfl, rfl, ?_⟩
  intro st
  by_cases hc : KnowledgeBase.check_knowledge_base_exists st.kb <;> simp [get_status, hc]

/-- C6: within one streaming session whose generation completes, the
consumer's loop delivers exactly the produced tokens, in production order,
with no token dropped or duplicated, terminating at the end-of-stream
sentinel. -/
theorem streaming_delivers_tokens_in_order (tokens : List String) :
    get_tokens (queueContents (successTrace tokens)) = some tokens := by
  induction tokens with
  | nil => rfl
  | cons t ts ih =>
    have step : queueContents (successTrace (t :: ts)) =
        some t :: queueContents (successTrace ts) := by
      simp [successTrace, handlerEnqueue, queueContents]
    rw [step, get_tokens, ih]
    rfl

/-- C7: a document that fails extraction contributes zero chunks and does
not raise (`process_pdf` returns `[]` on the exception path), and the
remaining documents of the batch are still processed: the directory result
is the concatenation of the per-file results with the failing file's
contribution empty. -/
theorem failing_document_skipped (p : PDFProcessor) (path : String)
    (files1 files2 : List PdfFile) :
    p.process_pdf (.bad path) = [] ∧
    p.process_directory (files1 ++ .bad path :: files2) =
      p.process_directory files1 ++ p.process_directory files2 := by
  refine ⟨rfl, ?_⟩
  simp [PDFProcessor.process_directory, PDFProcessor.process_pdf]

/-- C8: the load operation (as invoked from `__init__`, where
`self.vector_store` starts as None) returns false and leaves the
in-memory index unset — so the exists check reports false — on a missing
persisted-index file and on any deserialization failure; it returns true,
with the store set, exactly when a persisted index deserializes
successfully.  Totality of `KnowledgeBase.load_vector_store` embeds
"never raises": the only failure modes are the two returning branches. -/
theorem load_spec :
    KnowledgeBase.load_vector_store none .missing = (none, false) ∧
    KnowledgeBase.load_vector_store none .corrupted = (none, false) ∧
    (∀ vs : VectorStore, KnowledgeBase.load_vector_store none (.saved vs) = (some vs, true)) ∧
    (∀ disk : DiskState, ((KnowledgeBase.load_vector_store none disk).2 = true ↔
      ∃ vs, disk = .saved vs)) ∧
    (∀ disk : DiskState, (KnowledgeBase.load_vector_store none disk).2 = false →
      KnowledgeBase.check_knowledge_base_exists
        ⟨(KnowledgeBase.load_vector_store none disk).1, disk⟩ = false) := by
  refine ⟨rfl, rfl, fun vs => rfl, fun disk => ?_, fun disk => ?_⟩ <;>
    cases disk <;>
      simp [KnowledgeBase.load_vector_store, KnowledgeBase.check_knowledge_base_exists]

/-- C9: within one streaming session the sources value accompanying every
yielded (token, sources) pair is the single snapshot computed at retrieval
time — the deduplicated source names of the retrieved chunks — identical
for every token, and it holds each distinct source identifier at most
once. -/
theorem streaming_sources_fixed_snapshot (search : SearchFn)
    (llmTokens : String → List String) (st : KBState) (vs : VectorStore)
    (q : String) (h : st.vector_store = some vs) :
    ∃ pairs, ChatInterface.get_streaming_response search llmTokens st q = .ok pairs ∧
      (∀ pr ∈ pairs,
        pr.2 = dedupSources ((search vs.docs q 4).filterMap (·.source))) ∧
      (dedupSources ((search vs.docs q 4).filterMap (·.source))).Nodup := by
  have e : ChatInterface.get_streaming_response search llmTokens st q =
      .ok ((llmTokens (qaPromptFormat
          (String.intercalate "\n\n" ((search vs.docs q 4).map (·.page_content))) q)).map
        fun t => (t, dedupSources ((search vs.docs q 4).filterMap (·.source)))) := by
    simp only [ChatInterface.get_streaming_response, h]
  refine ⟨_, e, ?_, ?_⟩
  · intro pr hpr
    rcases List.mem_map.1 hpr with ⟨t, _, rfl⟩
    rfl
  · simp only [dedupSources]
    exact List.nodup_dedup _

/-- C9, witness: a one-document index whose chunk is retrieved twice under
the same source name; both streamed tokens carry the same deduplicated
snapshot. -/
theorem streaming_sources_fixed_snapshot_witness :
    ∃ pairs, ChatInterface.get_streaming_response (fun docs _ _ => docs ++ docs)
        (fun _ => ["The", " sky"])
        ⟨some ⟨[⟨"blue", some "a.pdf"⟩]⟩, DiskState.missing⟩ "q" = .ok pairs ∧
      (∀ pr ∈ pairs,
        pr.2 = dedupSources ((((fun docs _ _ => docs ++ docs) : SearchFn)
          [⟨"blue", some "a.pdf"⟩] "q" 4).filterMap (·.source))) ∧
      (dedupSources ((((fun docs _ _ => docs ++ docs) : SearchFn)
        [⟨"blue", some "a.pdf"⟩] "q" 4).filterMap (·.source))).Nodup :=
  streaming_sources_fixed_snapshot (fun docs _ _ => docs ++ docs)
    (fun _ => ["The", " sky"]) ⟨some ⟨[⟨"blue", some "a.pdf"⟩]⟩, DiskState.missing⟩
    ⟨[⟨"blue", some "a.pdf"⟩]⟩ "q" rfl

/-- C10: the query operation is read-only: it returns the state unchanged,
so a later exists check, a later search (any question, any k) and a later
load all behave as if the query had not been made. -/
theorem query_is_read_only (search : SearchFn) (st : KBState) (question : String)
    (top_k : Nat) (q2 : String) (k2 : Nat) :
    (KnowledgeBase.query search st question top_k).1 = st ∧
    KnowledgeBase.check_knowledge_base_exists
        (KnowledgeBase.query search st question top_k).1 =
      KnowledgeBase.check_knowledge_base_exists st ∧
    KnowledgeBase.query search (KnowledgeBase.query search st question top_k).1 q2 k2 =
      KnowledgeBase.query search st q2 k2 ∧
    KnowledgeBase.load_vector_store
        (KnowledgeBase.query search st question top_k).1.vector_store
        (KnowledgeBase.query search st question top_k).1.disk =
      KnowledgeBase.load_vector_store st.vector_store st.disk := by
  have h1 : (KnowledgeBase.query search st question top_k).1 = st := by
    cases h : st.vector_store <;> simp [KnowledgeBase.query, h]
  exact ⟨h1, by rw [h1], by rw [h1], by rw [h1]⟩
